import Mathlib

/-!
Verification of the `quakefeeds` package (file `quakefeeds/__init__.py`).

The Python class `QuakeFeed` is shallowly embedded as follows:

* the deserialized JSON feed (`self.data`) becomes the structure `FeedData`,
  with `metadata`, `bbox` and `features` fields mirroring the GeoJSON keys
  the code reads; JSON numbers are modelled as `Rat` (for magnitudes,
  coordinates) and `Nat`/`Int` where the code treats them as counts or
  epoch milliseconds;
* `requests.get` becomes an explicit oracle `get : String → HttpResponse`,
  where `HttpResponse` carries the status code and the parsed JSON body;
* exceptions (`ValueError`, `IOError`) become `Except PyErr`;
* constructor-time network traffic is made observable by `constructLog`,
  which also returns the list of URLs requested, in order;
* `refresh` is embedded with explicit state passing (`refreshStep`): the
  result pairs the outcome with the stored data after the call;
* the Jinja2 environment is abstracted as `Jinja2Env`, a function from a
  template file name, the extracted map data and the feed to the rendered
  HTML string; `create_google_map`'s default `Environment(loader=...)` is
  passed in as the `defaultEnv` argument;
* `write_google_map`'s observable effect is reified as `WriteEffect`;
  Python's `print(html, file=...)` appends a newline to what it writes.
-/

namespace Quakefeeds

/-- Exceptions raised by the Python code: `ValueError` and `IOError`. -/
inductive PyErr where
  | valueError (msg : String)
  | ioError (msg : String)
  deriving Repr, DecidableEq

/-- The `metadata` block of a feed: the fields the code reads
(`generated`, `url`, `title`, `count`). -/
structure Metadata where
  generated : Int
  url : String
  title : String
  count : Nat
  deriving Repr, DecidableEq

/-- One GeoJSON feature: the fields the code reads
(`properties.mag`, `properties.place`, `properties.time`,
`properties.title`, `geometry.coordinates`).  The coordinates array is
kept as a list, as in the JSON, since the code slices and unpacks it. -/
structure Event where
  mag : Rat
  place : String
  time : Int
  title : String
  coordinates : List Rat
  deriving Repr, DecidableEq

/-- The deserialized JSON document stored in `self.data`. -/
structure FeedData where
  metadata : Metadata
  bbox : List Rat
  features : List Event
  deriving Repr, DecidableEq

/-- An HTTP response as the code observes it: `status_code` and the
parsed JSON body (`response.json()`). -/
structure HttpResponse where
  status : Nat
  body : FeedData
  deriving Repr, DecidableEq

/-- `URL.format(level, period)`: the module-level template
`"http://earthquake.usgs.gov/earthquakes/feed/v1.0/summary/{}_{}.geojson"`
with the two holes filled in. -/
def URL (level period : String) : String :=
  "http://earthquake.usgs.gov/earthquakes/feed/v1.0/summary/" ++ level ++ "_"
    ++ period ++ ".geojson"

/-- `ALLOWED_LEVELS = { "significant", "4.5", "2.5", "1.0", "all" }`. -/
def ALLOWED_LEVELS : List String := ["significant", "4.5", "2.5", "1.0", "all"]

/-- `ALLOWED_PERIODS = { "hour", "day", "week", "month" }`. -/
def ALLOWED_PERIODS : List String := ["hour", "day", "week", "month"]

/-- Python's `str.lower()`: lowercase every character.  (Mapping
`Char.toLower` over the characters; extensionally `String.toLower`, stated
by structural recursion so that concrete instances evaluate.  The strings
this code compares are ASCII.) -/
def lower (s : String) : String := String.mk (s.data.map Char.toLower)

/-- `QuakeFeed.__init__(level, period)`, instrumented: besides the outcome
(the stored data on success, the raised exception on failure) it returns the
list of URLs passed to `requests.get`, in order, so that the absence of
network traffic on a validation failure is provable. -/
def constructLog (level period : String) (get : String → HttpResponse) :
    Except PyErr FeedData × List String :=
  if lower level ∉ ALLOWED_LEVELS then
    (Except.error (PyErr.valueError "invalid severity level"), [])
  else if lower period ∉ ALLOWED_PERIODS then
    (Except.error (PyErr.valueError "invalid period"), [])
  else
    let feedUrl := URL (lower level) (lower period)
    let response := get feedUrl
    if response.status ≠ 200 then
      (Except.error (PyErr.ioError ("HTTP status code " ++ toString response.status)),
        [feedUrl])
    else
      (Except.ok response.body, [feedUrl])

/-- `QuakeFeed.__init__(level, period)`: the outcome alone. -/
def construct (level period : String) (get : String → HttpResponse) :
    Except PyErr FeedData :=
  (constructLog level period get).1

/-- `QuakeFeed.__len__`: `self.data["metadata"]["count"]`. -/
def feedLength (d : FeedData) : Nat :=
  d.metadata.count

/-- The `events` property: the generator yields each element of
`self.data["features"]` in order, so a full traversal produces exactly
this list. -/
def eventsList (d : FeedData) : List Event :=
  d.features

/-- Python list subscripting `xs[i]` with an `int` index: a negative index
is offset by the length, and an index out of range raises `IndexError`
(modelled as `none`). -/
def pyGet (xs : List α) (i : Int) : Option α :=
  let j := if i < 0 then i + xs.length else i
  if 0 ≤ j ∧ j < xs.length then xs.get? j.toNat else none

/-- `QuakeFeed.event(index)`: `self.data["features"][index]`. -/
def event (d : FeedData) (i : Int) : Option Event :=
  pyGet d.features i

/-- `QuakeFeed.__getitem__(index)`: delegates to `self.event(index)`. -/
def getitem (d : FeedData) (i : Int) : Option Event :=
  event d i

/-- `QuakeFeed.refresh`, with explicit state passing: the pair holds the
outcome and the data stored after the call.  The body mirrors the source:
`requests.get(self.url)` (the recorded metadata URL), raise `IOError` on a
non-200 status — at which point `self.data` has not been reassigned — and
otherwise store `response.json()` wholesale. -/
def refreshStep (d : FeedData) (get : String → HttpResponse) :
    Except PyErr Unit × FeedData :=
  let response := get d.metadata.url
  if response.status ≠ 200 then
    (Except.error (PyErr.ioError ("HTTP status code " ++ toString response.status)), d)
  else
    (Except.ok (), response.body)

/-- One entry of `map_data` in `create_google_map`: the tuple
`(lat, lon, mag, place)`. -/
abbrev Point := Rat × Rat × Rat × String

/-- The Jinja2 machinery abstracted: `env.get_template(tpfile)` followed by
`template.render(data=map_data, feed=self)` becomes one function from the
template file name, the extracted data and the feed to the HTML string. -/
structure Jinja2Env where
  getTemplate : String → List Point → FeedData → String

/-- `QuakeFeed.MAP_STYLES = ("plain", "titled")`. -/
def MAP_STYLES : List String := ["plain", "titled"]

/-- `max_points = 300  # Google API limit`. -/
def maxPoints : Nat := 300

/-- The loop body of `create_google_map`:
`mag = ...; place = ...; lon, lat, _ = event["geometry"]["coordinates"];`
and the tuple appended is `(lat, lon, mag, place)`.  The unpacking
`lon, lat, _ = ...` requires the coordinates array to have exactly three
elements; otherwise Python raises, modelled as `none`. -/
def extractPoint (e : Event) : Option Point :=
  match e.coordinates with
  | [lon, lat, _] => some (lat, lon, e.mag, e.place)
  | _ => none

/-- The `for event in ...` loop of `create_google_map`, building `map_data`
by appending one tuple per event; the first failing unpack aborts the call. -/
def buildMapData : List Event → Option (List Point)
  | [] => some []
  | e :: rest =>
      match extractPoint e with
      | none => none
      | some p =>
          match buildMapData rest with
          | none => none
          | some pts => some (p :: pts)

/-- `map_data` as built by `create_google_map` from
`self.data["features"][:max_points]`. -/
def mapData (features : List Event) : Option (List Point) :=
  buildMapData (features.take maxPoints)

/-- The keyword arguments of `create_google_map` that the code reads:
`kwargs.get("env")`, `kwargs.get("style", "plain")`, `kwargs.get("tpfile")`.
An absent keyword is `none`. -/
structure Kwargs where
  env : Option Jinja2Env
  style : Option String
  tpfile : Option String

/-- `QuakeFeed.create_google_map(**kwargs)`.  The default
`Environment(loader=PackageLoader("quakefeeds"))` is the `defaultEnv`
argument.  With no `env` keyword, the style (default `"plain"`) is checked
against `MAP_STYLES` and the template file is `style + ".html"`; with an
`env` keyword, `tpfile` must be supplied and the style is never read.
Then `map_data` is extracted and the template rendered. -/
def createGoogleMap (defaultEnv : Jinja2Env) (d : FeedData) (k : Kwargs) :
    Except PyErr String :=
  let chosen : Except PyErr (Jinja2Env × String) :=
    match k.env with
    | none =>
        let style := k.style.getD "plain"
        if style ∉ MAP_STYLES then
          Except.error (PyErr.valueError "invalid map style")
        else
          Except.ok (defaultEnv, style ++ ".html")
    | some e =>
        match k.tpfile with
        | none => Except.error (PyErr.valueError "tpfile argument not supplied")
        | some t => Except.ok (e, t)
  match chosen with
  | Except.error err => Except.error err
  | Except.ok (env, tpfile) =>
      match mapData d.features with
      | none => Except.error (PyErr.valueError "not enough values to unpack")
      | some pts => Except.ok (env.getTemplate tpfile pts d)

/-- The `output` argument of `write_google_map`: `None`, a `str` path, an
open `io.TextIOBase` handle (writable or not), or anything else. -/
inductive Dest where
  | stdout
  | path (p : String)
  | handle (writable : Bool)
  | other

/-- The observable write performed by `write_google_map`.  In every branch
the code writes with `print(html, ...)`, which appends a newline. -/
inductive WriteEffect where
  | toStdout (contents : String)
  | toFile (p : String) (contents : String)
  | toHandle (contents : String)
  deriving Repr, DecidableEq

/-- `QuakeFeed.write_google_map(output=None, **kwargs)`: calls
`create_google_map(**kwargs)`, then dispatches on the destination.
`open(output, "wt")` creates or truncates the named file, and
`print(html, file=outfile)` writes `html` plus a newline. -/
def writeGoogleMap (defaultEnv : Jinja2Env) (d : FeedData) (k : Kwargs)
    (output : Dest) : Except PyErr WriteEffect :=
  match createGoogleMap defaultEnv d k with
  | Except.error err => Except.error err
  | Except.ok html =>
      match output with
      | Dest.stdout => Except.ok (WriteEffect.toStdout (html ++ "\n"))
      | Dest.path p => Except.ok (WriteEffect.toFile p (html ++ "\n"))
      | Dest.handle w =>
          if w then Except.ok (WriteEffect.toHandle (html ++ "\n"))
          else Except.error (PyErr.ioError "destination not writable")
      | Dest.other => Except.error (PyErr.valueError "unsuitable output")

/-! Concrete sample data used by witnesses and counterexamples. -/

/-- A sample event with coordinates `[-120.0, 35.0, 5.2]` (lon, lat, depth),
magnitude 4.5 and place "10km N of X", as in the spec's concrete scenario. -/
def sampleEvent1 : Event :=
  ⟨(4.5 : Rat), "10km N of X", 1699990000000, "M 4.5 - 10km N of X",
    [(-120 : Rat), (35 : Rat), (5.2 : Rat)]⟩

/-- A second sample event with coordinates `[-119.5, 34.8, 3.1]`,
magnitude 2.1 and place "5km S of Y". -/
def sampleEvent2 : Event :=
  ⟨(2.1 : Rat), "5km S of Y", 1699980000000, "M 2.1 - 5km S of Y",
    [(-119.5 : Rat), (34.8 : Rat), (3.1 : Rat)]⟩

/-- A two-event feed matching the spec's concrete scenario. -/
def sampleFeed : FeedData :=
  ⟨⟨1700000000000, URL "all" "day", "USGS All Earthquakes, Past Day", 2⟩,
   [(-120 : Rat), (34.8 : Rat), (3.1 : Rat), (-119.5 : Rat), (35 : Rat), (5.2 : Rat)],
   [sampleEvent1, sampleEvent2]⟩

/-- The map data `create_google_map` extracts from `sampleFeed`:
latitude and longitude swapped relative to the GeoJSON order. -/
def samplePoints : List Point :=
  [((35 : Rat), (-120 : Rat), (4.5 : Rat), "10km N of X"),
   ((34.8 : Rat), (-119.5 : Rat), (2.1 : Rat), "5km S of Y")]

/-- A feed whose metadata count (1) disagrees with its features array
(empty).  The constructor never checks this. -/
def mismatchedFeed : FeedData :=
  ⟨⟨1700000000000, URL "all" "day", "USGS All Earthquakes, Past Day", 1⟩, [], []⟩

/-- An HTTP oracle answering every request with status 200 and
`sampleFeed` as body. -/
def okGet : String → HttpResponse := fun _ => ⟨200, sampleFeed⟩

/-- An HTTP oracle answering every request with status 404. -/
def notFoundGet : String → HttpResponse := fun _ => ⟨404, sampleFeed⟩

/-- An HTTP oracle answering every request with status 200 and
`mismatchedFeed` as body. -/
def mismatchedGet : String → HttpResponse := fun _ => ⟨200, mismatchedFeed⟩

/-- A concrete Jinja2 environment rendering every template to a fixed
string. -/
def constEnv : Jinja2Env :=
  ⟨fun _ _ _ => "HTML"⟩

/-! ### Helper lemmas -/

/-- `pyGet` returns `none` exactly on the indices Python's list
subscripting rejects with `IndexError`: those outside `[-len, len - 1]`. -/
theorem pyGet_eq_none_iff (xs : List α) (i : Int) :
    pyGet xs i = none ↔ (i < -(xs.length : Int) ∨ (xs.length : Int) ≤ i) := by
  simp only [pyGet]
  split_ifs with h1 h2 h3
  · rw [List.get?_eq_none]
    omega
  · exact ⟨fun _ => by omega, fun _ => rfl⟩
  · rw [List.get?_eq_none]
    omega
  · exact ⟨fun _ => by omega, fun _ => rfl⟩

/-- For `1 ≤ k ≤ len`, both `xs[-k]` and `xs[len - k]` are the element at
position `len - k`. -/
theorem pyGet_neg (xs : List α) (k : Nat) (h1 : 1 ≤ k) (h2 : k ≤ xs.length) :
    pyGet xs (-(k : Int)) = xs.get? (xs.length - k) ∧
    pyGet xs ((xs.length : Int) - (k : Int)) = xs.get? (xs.length - k) := by
  constructor
  · simp only [pyGet]
    split_ifs with ha hb hc
    · congr 1
      omega
    · exact absurd ⟨by omega, by omega⟩ hb
    · exact absurd (by omega) ha
    · exact absurd (by omega) ha
  · simp only [pyGet]
    split_ifs with ha hb hc
    · exact absurd ha (by omega)
    · exact absurd ha (by omega)
    · congr 1
      omega
    · exact absurd ⟨by omega, by omega⟩ hc

/-- An event whose coordinates array has exactly three elements unpacks
successfully in the `create_google_map` loop. -/
theorem extractPoint_isSome (e : Event) (h : e.coordinates.length = 3) :
    ∃ p, extractPoint e = some p := by
  obtain ⟨a, b, c, hc⟩ := List.length_eq_three.mp h
  exact ⟨(b, a, e.mag, e.place), by simp [extractPoint, hc]⟩

/-- When every event in the list unpacks, the loop builds one tuple per
event, in order. -/
theorem buildMapData_wf :
    ∀ (l : List Event), (∀ e ∈ l, e.coordinates.length = 3) →
      ∃ pts, buildMapData l = some pts ∧
        List.map extractPoint l = pts.map some ∧ pts.length = l.length
  | [], _ => ⟨[], rfl, rfl, rfl⟩
  | e :: rest, h => by
      obtain ⟨p, hp⟩ := extractPoint_isSome e (h e (List.mem_cons_self e rest))
      obtain ⟨pts, hb, hmap, hlen⟩ :=
        buildMapData_wf rest (fun x hx => h x (List.mem_cons_of_mem e hx))
      refine ⟨p :: pts, ?_, ?_, ?_⟩
      · simp [buildMapData, hp, hb]
      · simp [hp, hmap]
      · simp [hlen]

/-! ### Claims -/

/-- Claim C1, counterexample: the constructor checks nothing about the
body, so a fetch can succeed with a feed whose metadata `count` (1)
differs from the length of its `features` array (0); on that feed
`__len__` and a full traversal of `events` disagree. -/
theorem C1_counterexample :
    construct "all" "day" mismatchedGet = Except.ok mismatchedFeed ∧
    feedLength mismatchedFeed ≠ (eventsList mismatchedFeed).length :=
  ⟨rfl, by decide⟩

/-- Claim C1, amended: for every successfully constructed feed whose
metadata count equals the length of its features array (the source-data
contract the spec assumes but the code never checks), the value of
`__len__` equals the number of events produced by one full traversal of
`events`. -/
theorem C1_length_eq_traversal (level period : String)
    (get : String → HttpResponse) (d : FeedData)
    (_hok : construct level period get = Except.ok d)
    (hcount : d.metadata.count = d.features.length) :
    feedLength d = (eventsList d).length :=
  hcount

/-- Witness for C1's amended theorem at `sampleFeed`. -/
theorem C1_witness :
    construct "all" "day" okGet = Except.ok sampleFeed ∧
    sampleFeed.metadata.count = sampleFeed.features.length ∧
    feedLength sampleFeed = (eventsList sampleFeed).length :=
  ⟨rfl, rfl, C1_length_eq_traversal "all" "day" okGet sampleFeed rfl rfl⟩

/-- Claim C2: when the lowercased level or period is outside its allowed
enumeration the constructor raises `ValueError` and issues no request; when
both are valid it issues exactly one GET whose URL is built from the
lowercased level and period. -/
theorem C2_validation_before_network (level period : String)
    (get : String → HttpResponse) :
    ((lower level ∉ ALLOWED_LEVELS ∨ lower period ∉ ALLOWED_PERIODS) →
      (∃ msg, (constructLog level period get).1 =
        Except.error (PyErr.valueError msg)) ∧
      (constructLog level period get).2 = []) ∧
    (lower level ∈ ALLOWED_LEVELS → lower period ∈ ALLOWED_PERIODS →
      (constructLog level period get).2 =
        [URL (lower level) (lower period)]) := by
  constructor
  · intro h
    unfold constructLog
    by_cases hl : lower level ∈ ALLOWED_LEVELS
    · have hp : lower period ∉ ALLOWED_PERIODS := by tauto
      simp [hl, hp]
    · simp [hl]
  · intro hl hp
    unfold constructLog
    simp only [hl, hp, not_true_eq_false, if_false]
    split <;> rfl

/-- Witness for C2 at an invalid level and at a mixed-case valid pair. -/
theorem C2_witness :
    ((∃ msg, (constructLog "Bogus" "day" okGet).1 =
        Except.error (PyErr.valueError msg)) ∧
      (constructLog "Bogus" "day" okGet).2 = []) ∧
    (constructLog "ALL" "Day" okGet).2 = [URL "all" "day"] :=
  ⟨(C2_validation_before_network "Bogus" "day" okGet).1 (Or.inl (by decide)),
   ((C2_validation_before_network "ALL" "Day" okGet).2 (by decide) (by decide)).trans rfl⟩

/-- Claim C3: `refresh` fetches the feed's recorded metadata URL; on a
non-200 status it raises `IOError` carrying the status code and the stored
data is exactly what it was before the call, and only on a 200 status is
the stored data replaced wholesale by the response body. -/
theorem C3_refresh_all_or_nothing (d : FeedData) (get : String → HttpResponse) :
    ((get d.metadata.url).status ≠ 200 →
      refreshStep d get =
        (Except.error (PyErr.ioError
          ("HTTP status code " ++ toString (get d.metadata.url).status)), d)) ∧
    ((get d.metadata.url).status = 200 →
      refreshStep d get = (Except.ok (), (get d.metadata.url).body)) := by
  unfold refreshStep
  constructor
  · intro h
    simp [h]
  · intro h
    simp [h]

/-- Witness for C3: a 404 on refresh leaves `sampleFeed` unchanged. -/
theorem C3_witness :
    (notFoundGet sampleFeed.metadata.url).status ≠ 200 ∧
    refreshStep sampleFeed notFoundGet =
      (Except.error (PyErr.ioError "HTTP status code 404"), sampleFeed) :=
  ⟨by decide,
   ((C3_refresh_all_or_nothing sampleFeed notFoundGet).1 (by decide)).trans rfl⟩

/-- Claim C7: with valid level and period, a non-200 response to the
constructor's GET raises `IOError` carrying the status code, and no feed
data is produced. -/
theorem C7_construct_fetch_error (level period : String)
    (get : String → HttpResponse)
    (hl : lower level ∈ ALLOWED_LEVELS) (hp : lower period ∈ ALLOWED_PERIODS)
    (hs : (get (URL (lower level) (lower period))).status ≠ 200) :
    construct level period get =
      Except.error (PyErr.ioError
        ("HTTP status code " ++
          toString (get (URL (lower level) (lower period))).status)) := by
  unfold construct constructLog
  simp [hl, hp, hs]

/-- Witness for C7 at status 404. -/
theorem C7_witness :
    lower "all" ∈ ALLOWED_LEVELS ∧ lower "day" ∈ ALLOWED_PERIODS ∧
    (notFoundGet (URL (lower "all") (lower "day"))).status ≠ 200 ∧
    construct "all" "day" notFoundGet =
      Except.error (PyErr.ioError "HTTP status code 404") :=
  ⟨by decide, by decide, by decide,
   (C7_construct_fetch_error "all" "day" notFoundGet
      (by decide) (by decide) (by decide)).trans rfl⟩

/-- Claim C4: when every event among the first 300 unpacks (its
coordinates array has exactly three elements), `create_google_map` builds
its plotted-point list from at most the first 300 events — one point per
taken event, in feed order; the list has 300 entries when the feed has
more than 300 events and exactly N entries when it has N ≤ 300. -/
theorem C4_at_most_300_points (features : List Event)
    (h : ∀ e ∈ features.take maxPoints, e.coordinates.length = 3) :
    ∃ pts, mapData features = some pts ∧
      List.map extractPoint (features.take maxPoints) = pts.map some ∧
      (maxPoints < features.length → pts.length = maxPoints) ∧
      (features.length ≤ maxPoints → pts.length = features.length) := by
  obtain ⟨pts, hb, hmap, hlen⟩ := buildMapData_wf (features.take maxPoints) h
  rw [List.length_take] at hlen
  exact ⟨pts, hb, hmap, fun hgt => by omega, fun hle => by omega⟩

/-- Witness for C4 at `sampleFeed` (two events, both well-formed). -/
theorem C4_witness :
    (∀ e ∈ sampleFeed.features.take maxPoints, e.coordinates.length = 3) ∧
    ∃ pts, mapData sampleFeed.features = some pts ∧
      List.map extractPoint (sampleFeed.features.take maxPoints) = pts.map some ∧
      (maxPoints < sampleFeed.features.length → pts.length = maxPoints) ∧
      (sampleFeed.features.length ≤ maxPoints →
        pts.length = sampleFeed.features.length) :=
  ⟨by decide, C4_at_most_300_points sampleFeed.features (by decide)⟩

/-- Claim C5: an event whose GeoJSON coordinates are `[lon, lat, depth]`
is rendered as the tuple `(lat, lon, mag, place)` — latitude and longitude
swapped relative to the GeoJSON order, depth dropped. -/
theorem C5_coordinate_swap (e : Event) (lon lat dep : Rat)
    (h : e.coordinates = [lon, lat, dep]) :
    extractPoint e = some (lat, lon, e.mag, e.place) := by
  simp [extractPoint, h]

/-- Witness for C5 at `sampleEvent1`, whose coordinates are
`[-120, 35, 5.2]`. -/
theorem C5_witness :
    sampleEvent1.coordinates = [(-120 : Rat), (35 : Rat), (5.2 : Rat)] ∧
    extractPoint sampleEvent1 =
      some ((35 : Rat), (-120 : Rat), sampleEvent1.mag, sampleEvent1.place) :=
  ⟨rfl, C5_coordinate_swap sampleEvent1 (-120 : Rat) (35 : Rat) (5.2 : Rat) rfl⟩

/-- Claim C6, counterexample: `write_google_map` writes with
`print(html, file=outfile)`, which appends a newline, so the file contents
are the rendered string plus `"\n"` — not equal to the rendered string. -/
theorem C6_counterexample :
    createGoogleMap constEnv sampleFeed ⟨some constEnv, none, some "map.html"⟩ =
      Except.ok "HTML" ∧
    writeGoogleMap constEnv sampleFeed ⟨some constEnv, none, some "map.html"⟩
      (Dest.path "quakes.html") =
      Except.ok (WriteEffect.toFile "quakes.html" ("HTML" ++ "\n")) ∧
    ("HTML" ++ "\n") ≠ "HTML" :=
  ⟨rfl, rfl, by decide⟩

/-- Claim C6, amended: `write_google_map` with a file-path destination
creates or truncates that file, and the file's full contents equal the
string returned by `create_google_map` for the same feed and options
followed by one trailing newline. -/
theorem C6_file_gets_render_output (defaultEnv : Jinja2Env) (d : FeedData)
    (k : Kwargs) (p html : String)
    (h : createGoogleMap defaultEnv d k = Except.ok html) :
    writeGoogleMap defaultEnv d k (Dest.path p) =
      Except.ok (WriteEffect.toFile p (html ++ "\n")) := by
  simp [writeGoogleMap, h]

/-- Witness for C6's amended theorem. -/
theorem C6_witness :
    createGoogleMap constEnv sampleFeed ⟨some constEnv, none, some "t.html"⟩ =
      Except.ok "HTML" ∧
    writeGoogleMap constEnv sampleFeed ⟨some constEnv, none, some "t.html"⟩
      (Dest.path "out.html") =
      Except.ok (WriteEffect.toFile "out.html" ("HTML" ++ "\n")) :=
  ⟨rfl, C6_file_gets_render_output constEnv sampleFeed
    ⟨some constEnv, none, some "t.html"⟩ "out.html" "HTML" rfl⟩

/-- Claim C8: without a custom environment, a style outside
`MAP_STYLES` makes `create_google_map` raise `ValueError`; with a custom
environment but no `tpfile`, it raises `ValueError`. -/
theorem C8_render_config_errors (defaultEnv : Jinja2Env) (d : FeedData)
    (s : String) (tp : Option String) (e : Jinja2Env) (s2 : Option String)
    (hs : s ∉ MAP_STYLES) :
    createGoogleMap defaultEnv d ⟨none, some s, tp⟩ =
      Except.error (PyErr.valueError "invalid map style") ∧
    createGoogleMap defaultEnv d ⟨some e, s2, none⟩ =
      Except.error (PyErr.valueError "tpfile argument not supplied") := by
  constructor
  · simp [createGoogleMap, hs]
  · simp [createGoogleMap]

/-- Witness for C8 at the invalid style `"fancy"`. -/
theorem C8_witness :
    "fancy" ∉ MAP_STYLES ∧
    (createGoogleMap constEnv sampleFeed ⟨none, some "fancy", none⟩ =
      Except.error (PyErr.valueError "invalid map style") ∧
    createGoogleMap constEnv sampleFeed ⟨some constEnv, some "fancy", none⟩ =
      Except.error (PyErr.valueError "tpfile argument not supplied")) :=
  ⟨by decide, C8_render_config_errors constEnv sampleFeed "fancy" none constEnv
    (some "fancy") (by decide)⟩

/-- Claim C9: with n ≥ 1 events and 1 ≤ k ≤ n, `event(-k)` (and the
subscript form) returns the same record as `event(n - k)`, that record
exists, and `IndexError` occurs exactly for indices outside
`[-n, n - 1]`. -/
theorem C9_negative_indexing (d : FeedData) (k : Nat) (i : Int)
    (h1 : 1 ≤ k) (h2 : k ≤ d.features.length) :
    event d (-(k : Int)) = event d ((d.features.length : Int) - (k : Int)) ∧
    getitem d (-(k : Int)) = event d ((d.features.length : Int) - (k : Int)) ∧
    (∃ e, event d (-(k : Int)) = some e) ∧
    (event d i = none ↔
      (i < -(d.features.length : Int) ∨ (d.features.length : Int) ≤ i)) := by
  obtain ⟨hneg, hpos⟩ := pyGet_neg d.features k h1 h2
  have hlt : d.features.length - k < d.features.length := by omega
  refine ⟨?_, ?_, ?_, ?_⟩
  · exact hneg.trans hpos.symm
  · exact hneg.trans hpos.symm
  · exact ⟨d.features.get ⟨d.features.length - k, hlt⟩,
      hneg.trans (List.get?_eq_get hlt)⟩
  · exact pyGet_eq_none_iff d.features i

/-- Witness for C9 at `sampleFeed` (n = 2), k = 1, probe index 2. -/
theorem C9_witness :
    1 ≤ 1 ∧ 1 ≤ sampleFeed.features.length ∧
    (event sampleFeed (-(1 : Int)) =
        event sampleFeed ((sampleFeed.features.length : Int) - (1 : Int)) ∧
      getitem sampleFeed (-(1 : Int)) =
        event sampleFeed ((sampleFeed.features.length : Int) - (1 : Int)) ∧
      (∃ e, event sampleFeed (-(1 : Int)) = some e) ∧
      (event sampleFeed (2 : Int) = none ↔
        ((2 : Int) < -(sampleFeed.features.length : Int) ∨
          (sampleFeed.features.length : Int) ≤ (2 : Int)))) :=
  ⟨by decide, by decide,
    C9_negative_indexing sampleFeed 1 2 (by decide) (by decide)⟩

/-- Claim C10: with a custom environment and a template identifier
supplied, the style keyword is never read — any two style values give the
same result — and rendering proceeds with the supplied template without
raising, even for a style outside `MAP_STYLES`. -/
theorem C10_style_ignored (defaultEnv : Jinja2Env) (d : FeedData)
    (e : Jinja2Env) (t : String) (s1 s2 : Option String) (pts : List Point)
    (hm : mapData d.features = some pts) :
    createGoogleMap defaultEnv d ⟨some e, s1, some t⟩ =
      createGoogleMap defaultEnv d ⟨some e, s2, some t⟩ ∧
    createGoogleMap defaultEnv d ⟨some e, s1, some t⟩ =
      Except.ok (e.getTemplate t pts d) := by
  constructor
  · rfl
  · simp [createGoogleMap, hm]

/-- Witness for C10 at the invalid style `"garbage"` against no style. -/
theorem C10_witness :
    mapData sampleFeed.features = some samplePoints ∧
    (createGoogleMap constEnv sampleFeed
        ⟨some constEnv, some "garbage", some "t.html"⟩ =
      createGoogleMap constEnv sampleFeed ⟨some constEnv, none, some "t.html"⟩ ∧
    createGoogleMap constEnv sampleFeed
        ⟨some constEnv, some "garbage", some "t.html"⟩ =
      Except.ok (constEnv.getTemplate "t.html" samplePoints sampleFeed)) :=
  ⟨rfl, C10_style_ignored constEnv sampleFeed constEnv "t.html"
    (some "garbage") none samplePoints rfl⟩

end Quakefeeds
